import Mathlib

/-!
Verification of the concurrent task-execution engine of the bulk-data
repository: the rate limiter (src/rate_limiter.py), the deduplication
trackers (src/data_tracker.py), and the worker pool / ingestion
coordinator (src/worker_pool.py).

The Python code is shallowly embedded: wall-clock time is an explicit
rational-number parameter, `time.sleep(w)` is modelled as advancing the
clock by exactly `w`, a handler invocation is modelled as a pure function
returning its outcome together with the duration that the surrounding
`time.time()` bracketing would measure, and the concurrent worker pool is
modelled by its deterministic single-worker drain (one worker repeatedly
dequeues from the FIFO queue until it is empty), which is the
deterministic instance of the pool's interleaving semantics.  Python
exceptions that escape a function are modelled with `Except`.
-/

/-! ## Rate limiter (src/rate_limiter.py) -/

/-- State of `RateLimiter` (src/rate_limiter.py lines 22-42).  The deques
hold request timestamps, oldest at the head; the configured limits are
Python ints, hence `Int`. -/
structure RateLimiter where
  requests_per_hour : Int
  requests_per_minute : Int
  hour_window : List ℚ
  minute_window : List ℚ
  total_requests : Nat
  total_throttled : Nat
deriving Repr

/-- `RateLimiter.__init__` (lines 22-42): stores the two limits and starts
with empty windows and zero counters.  It performs no validation. -/
def RateLimiter.init (requests_per_hour requests_per_minute : Int) : RateLimiter :=
  { requests_per_hour := requests_per_hour
    requests_per_minute := requests_per_minute
    hour_window := []
    minute_window := []
    total_requests := 0
    total_throttled := 0 }

/-- `RateLimiter._clean_window` (lines 44-48): pop entries from the left
while the head is strictly older than `max_age` seconds. -/
def clean_window (now max_age : ℚ) : List ℚ → List ℚ
  | [] => []
  | t :: rest => if now - t > max_age then clean_window now max_age rest else t :: rest

/-- `RateLimiter.wait_if_needed` (lines 50-87).  Cleans both windows,
computes `wait_time` as the running `max` over 0 and the two constraint
waits, sleeps (clock advances by `wait_time`), appends the re-sampled
timestamp to both windows and bumps the counters.  When a window is empty
but its length still reaches the configured limit (possible only for a
non-positive limit), Python's `window[0]` raises an uncaught
`IndexError`, modelled by the `Except.error` branch. -/
def wait_if_needed (now : ℚ) (st : RateLimiter) : Except String (ℚ × RateLimiter) :=
  let hw := clean_window now 3600 st.hour_window
  let mw := clean_window now 60 st.minute_window
  let w0 : ℚ := 0
  let r1 : Except String ℚ :=
    if (mw.length : Int) ≥ st.requests_per_minute then
      match mw.head? with
      | none => Except.error "IndexError: deque index out of range"
      | some oldest_minute => Except.ok (max w0 (60 - (now - oldest_minute)))
    else Except.ok w0
  match r1 with
  | Except.error e => Except.error e
  | Except.ok w1 =>
    let r2 : Except String ℚ :=
      if (hw.length : Int) ≥ st.requests_per_hour then
        match hw.head? with
        | none => Except.error "IndexError: deque index out of range"
        | some oldest_hour => Except.ok (max w1 (3600 - (now - oldest_hour)))
      else Except.ok w1
    match r2 with
    | Except.error e => Except.error e
    | Except.ok wait_time =>
      let throttled := if wait_time > 0 then st.total_throttled + 1 else st.total_throttled
      let now2 := if wait_time > 0 then now + wait_time else now
      Except.ok (wait_time,
        { st with
          hour_window := hw ++ [now2]
          minute_window := mw ++ [now2]
          total_requests := st.total_requests + 1
          total_throttled := throttled })

/-- `RateLimiterManager` (lines 110-136): a name-keyed map of limiters,
modelled as an association list, newest binding first. -/
def lookupLimiter (m : List (String × RateLimiter)) (name : String) : Option RateLimiter :=
  (m.find? (fun p => p.1 = name)).map (fun p => p.2)

/-- `RateLimiterManager.get_or_create` (lines 117-136): construct and
store a limiter the first time `name` is seen, otherwise return the
stored one (the per-call limits are then ignored). -/
def get_or_create (m : List (String × RateLimiter)) (name : String)
    (requests_per_hour requests_per_minute : Int) :
    RateLimiter × List (String × RateLimiter) :=
  match lookupLimiter m name with
  | some l => (l, m)
  | none =>
    let l := RateLimiter.init requests_per_hour requests_per_minute
    (l, (name, l) :: m)

/-! ## Deduplication trackers (src/data_tracker.py) -/

/-- `InMemoryDataTracker` (lines 189-223): a set of ids plus an
id-to-metadata map, here a duplicate-free list and an association list. -/
structure InMemoryDataTracker (μ : Type) where
  name : String
  items : List String
  metadata : List (String × μ)
deriving Repr

/-- `InMemoryDataTracker.__init__` (lines 192-196). -/
def InMemoryDataTracker.init (μ : Type) (name : String) : InMemoryDataTracker μ :=
  { name := name, items := [], metadata := [] }

/-- `InMemoryDataTracker.has_item` (lines 198-201): set membership. -/
def InMemoryDataTracker.has_item (s : InMemoryDataTracker μ) (item_id : String) : Bool :=
  s.items.contains item_id

/-- `InMemoryDataTracker.add_item` (lines 203-208): `set.add` (no-op when
present) and, when metadata is supplied, store it under the id. -/
def InMemoryDataTracker.add_item (s : InMemoryDataTracker μ) (item_id : String)
    (metadata : Option μ) : InMemoryDataTracker μ :=
  { s with
    items := if s.items.contains item_id then s.items else s.items ++ [item_id]
    metadata := match metadata with
      | none => s.metadata
      | some m => (item_id, m) :: s.metadata.filter (fun p => p.1 ≠ item_id) }

/-- `InMemoryDataTracker.get_stats` total_items field (lines 210-217):
the size of the id set. -/
def InMemoryDataTracker.total_items (s : InMemoryDataTracker μ) : Nat :=
  s.items.length

/-- `InMemoryDataTracker.clear` (lines 219-223). -/
def InMemoryDataTracker.clear (s : InMemoryDataTracker μ) : InMemoryDataTracker μ :=
  { s with items := [], metadata := [] }

/-- One row of the `ingested_items` table used by `SQLiteDataTracker`
(src/data_tracker.py lines 67-89), unique on `(tracker_name, item_id)`. -/
structure DedupRow where
  tracker_name : String
  item_id : String
  item_hash : String
  ingested_at : ℚ
  metadata : Option String
deriving Repr, DecidableEq

/-- The SQLite database backing `SQLiteDataTracker`: the list of rows of
`ingested_items` (rows of every tracker name share the one table). -/
abbrev SQLiteDB : Type := List DedupRow

/-- `SQLiteDataTracker.has_item` (lines 91-100): `COUNT(*) > 0` over rows
matching this tracker name and item id. -/
def SQLiteDataTracker.has_item (db : SQLiteDB) (name item_id : String) : Bool :=
  db.any (fun r => r.tracker_name = name && r.item_id = item_id)

/-- `SQLiteDataTracker.add_item` (lines 102-128): INSERT the row; on the
uniqueness violation (`IntegrityError`, the key already present) UPDATE
the existing row's metadata and timestamp instead.  `hash` models
`hashlib.sha256(item_id.encode()).hexdigest()`. -/
def SQLiteDataTracker.add_item (hash : String → String) (db : SQLiteDB)
    (name item_id : String) (metadata : Option String) (now : ℚ) : SQLiteDB :=
  if db.any (fun r => r.tracker_name = name && r.item_id = item_id) then
    db.map (fun r =>
      if r.tracker_name = name && r.item_id = item_id then
        { r with metadata := metadata, ingested_at := now }
      else r)
  else
    db ++ [{ tracker_name := name, item_id := item_id, item_hash := hash item_id
             ingested_at := now, metadata := metadata }]

/-- `SQLiteDataTracker.get_stats` total_items field (lines 130-152):
`COUNT(*)` over rows with this tracker name. -/
def SQLiteDataTracker.total_items (db : SQLiteDB) (name : String) : Nat :=
  (db.filter (fun r => r.tracker_name = name)).length

/-- `SQLiteDataTracker.clear` (lines 154-162): DELETE rows with this
tracker name, leaving other trackers' rows in place. -/
def SQLiteDataTracker.clear (db : SQLiteDB) (name : String) : SQLiteDB :=
  db.filter (fun r => ¬ (r.tracker_name = name))

/-! ## Worker pool (src/worker_pool.py) -/

/-- `Task` (src/worker_pool.py lines 22-31; named `PoolTask` here because `Task` is taken by the Lean core library).  `params` is the opaque
parameter map, here a type parameter; `created_at` plays no role in any
operation and is omitted; `priority` is stored but unused, as in the
source. -/
structure PoolTask (π : Type) where
  task_id : String
  task_type : String
  params : π
  priority : Int := 0
  retry_count : Nat := 0
  max_retries : Nat := 3
deriving Repr

/-- `TaskResult` (lines 34-42). -/
structure TaskResult (δ : Type) where
  task_id : String
  success : Bool
  data : Option δ := none
  error : Option String := none
  execution_time : ℚ := 0
  worker_id : Nat := 0
deriving Repr, DecidableEq

/-- A registered handler: the Python callable `params -> data | raises`,
paired with the duration that the `time.time()` bracketing around the
call in `_execute_task` measures for this invocation. -/
abbrev Handler (π δ : Type) := π → Except String δ × ℚ

/-- `WorkerPool` state (lines 57-82): the FIFO task queue (head is
dequeued next, puts append at the tail), the collected results, the
statistics counters, and the task-type-to-handler map (an association
list, newest binding first, so re-registration shadows). -/
structure PoolState (π δ : Type) where
  num_workers : Nat
  queue : List (PoolTask π)
  results : List (TaskResult δ)
  task_handlers : List (String × Handler π δ)
  total_tasks : Nat
  completed_tasks : Nat
  failed_tasks : Nat
  retried_tasks : Nat
  total_execution_time : ℚ

/-- `WorkerPool.__init__` (lines 57-82): stores `num_workers`, starts
with an empty queue, empty results, zero counters and no handlers.  It
performs no validation of `num_workers`. -/
def PoolState.init (π δ : Type) (num_workers : Nat) : PoolState π δ :=
  { num_workers := num_workers, queue := [], results := [], task_handlers := []
    total_tasks := 0, completed_tasks := 0, failed_tasks := 0, retried_tasks := 0
    total_execution_time := 0 }

/-- Dictionary lookup `self.task_handlers.get(task_type)` (line 130). -/
def getHandler (hs : List (String × Handler π δ)) (task_type : String) :
    Option (Handler π δ) :=
  (hs.find? (fun p => p.1 = task_type)).map (fun p => p.2)

/-- `WorkerPool.register_handler` (lines 84-92): dictionary assignment,
overwriting any handler previously stored under the same type. -/
def PoolState.register_handler (st : PoolState π δ) (task_type : String)
    (handler : Handler π δ) : PoolState π δ :=
  { st with task_handlers := (task_type, handler) :: st.task_handlers }

/-- `WorkerPool.add_task` (lines 94-103): enqueue at the tail and bump
`total_tasks`. -/
def PoolState.add_task (st : PoolState π δ) (task : PoolTask π) : PoolState π δ :=
  { st with queue := st.queue ++ [task], total_tasks := st.total_tasks + 1 }

/-- `WorkerPool.add_tasks` (lines 105-113). -/
def PoolState.add_tasks (st : PoolState π δ) (tasks : List (PoolTask π)) : PoolState π δ :=
  tasks.foldl PoolState.add_task st

/-- `WorkerPool._execute_task` (lines 115-159).  A missing handler raises
`ValueError`, which the surrounding `except` converts into a failed
`TaskResult` exactly like a handler exception (the raise happens before
any handler work, so its measured duration is 0 in the time model). -/
def execute_task (hs : List (String × Handler π δ)) (task : PoolTask π)
    (worker_id : Nat) : TaskResult δ :=
  match getHandler hs task.task_type with
  | none =>
    { task_id := task.task_id, success := false, data := none
      error := some ("No handler registered for task type: " ++ task.task_type)
      execution_time := 0, worker_id := worker_id }
  | some handler =>
    match handler task.params with
    | (Except.ok d, t) =>
      { task_id := task.task_id, success := true, data := some d
        error := none, execution_time := t, worker_id := worker_id }
    | (Except.error e, t) =>
      { task_id := task.task_id, success := false, data := none
        error := some e, execution_time := t, worker_id := worker_id }

/-- One iteration of `WorkerPool._worker_loop` (lines 173-199) on a
dequeued `task`: execute it, append the result, update the statistics,
and on a non-terminal failure re-enqueue the task at the tail with
`retry_count` incremented.  The retry path calls `task_queue.put`
directly (line 192), so it bumps `retried_tasks` but not `total_tasks`. -/
def worker_step (st : PoolState π δ) (task : PoolTask π) (rest : List (PoolTask π))
    (worker_id : Nat) : PoolState π δ :=
  let result := execute_task st.task_handlers task worker_id
  if result.success then
    { st with
      queue := rest
      results := st.results ++ [result]
      completed_tasks := st.completed_tasks + 1
      total_execution_time := st.total_execution_time + result.execution_time }
  else if task.retry_count < task.max_retries then
    { st with
      queue := rest ++ [{ task with retry_count := task.retry_count + 1 }]
      results := st.results ++ [result]
      failed_tasks := st.failed_tasks + 1
      retried_tasks := st.retried_tasks + 1
      total_execution_time := st.total_execution_time + result.execution_time }
  else
    { st with
      queue := rest
      results := st.results ++ [result]
      failed_tasks := st.failed_tasks + 1
      total_execution_time := st.total_execution_time + result.execution_time }

/-- Fuel-indexed drain of the queue: the worker keeps dequeuing until the
queue is empty (`_worker_loop` exits once `is_running` is cleared by
`stop()` after the drain barrier). -/
def loopN (worker_id : Nat) : Nat → PoolState π δ → PoolState π δ
  | 0, st => st
  | n + 1, st =>
    match st.queue with
    | [] => st
    | task :: rest => loopN worker_id n (worker_step st task rest worker_id)

/-- Each task in the queue can be dequeued at most
`max_retries + 1 - retry_count` times; this measure bounds the number of
loop iterations and strictly decreases at every `worker_step`. -/
def runMeasure (q : List (PoolTask π)) : Nat :=
  (q.map (fun t => t.max_retries + 1 - t.retry_count)).sum + q.length

/-- `WorkerPool.run_until_complete` (lines 238-269): run the worker loop
to the drain barrier (queue empty and every dequeued task finished) and
return the final state, whose `results` field is the returned list. -/
def run_until_complete (st : PoolState π δ) : PoolState π δ :=
  loopN 0 (runMeasure st.queue) st

/-- The statistics snapshot assembled by `WorkerPool.get_stats`
(lines 271-286). -/
structure PoolStats where
  total_tasks : Nat
  completed_tasks : Nat
  failed_tasks : Nat
  retried_tasks : Nat
  total_execution_time : ℚ
  queue_size : Nat
  num_workers : Nat
  avg_execution_time : ℚ
deriving Repr, DecidableEq

/-- `WorkerPool.get_stats` (lines 271-286): copies the counters and
reports `avg_execution_time = total_execution_time / completed_tasks`
when `completed_tasks > 0` and `0.0` otherwise. -/
def get_stats (st : PoolState π δ) : PoolStats :=
  { total_tasks := st.total_tasks
    completed_tasks := st.completed_tasks
    failed_tasks := st.failed_tasks
    retried_tasks := st.retried_tasks
    total_execution_time := st.total_execution_time
    queue_size := st.queue.length
    num_workers := st.num_workers
    avg_execution_time :=
      if st.completed_tasks > 0 then
        st.total_execution_time / (st.completed_tasks : ℚ)
      else 0 }

/-! ## Ingestion coordinator (src/worker_pool.py lines 299-363) -/

/-- The params map `{"item": item, "collection": collection_name}` built
by `ingest_collection` (lines 338-342). -/
structure IngestParams (ι : Type) where
  item : ι
  collection : String
deriving Repr

/-- The tasks built by `DistributedIngestionCoordinator.ingest_collection`
(lines 336-343): one per item, `task_id = collection_name + "_" + i` with
`i` the positional index, and the fixed task type string `"ingest"`. -/
def ingest_tasks (collection_name : String) (items : List ι) :
    List (PoolTask (IngestParams ι)) :=
  (List.range items.length).zip items |>.map (fun p =>
    { task_id := collection_name ++ "_" ++ toString p.1
      task_type := "ingest"
      params := { item := p.2, collection := collection_name } })

/-- `DistributedIngestionCoordinator.ingest_collection` (lines 317-358):
register `processor` under the task type `"ingest"`, enqueue one task per
item, run the pool to completion; returns the run's results together with
the final pool state (the coordinator's `total_items_ingested` counter is
the number of successful results, tracked by the caller of this model). -/
def ingest_collection (pool : PoolState (IngestParams ι) δ)
    (collection_name : String) (items : List ι)
    (processor : Handler (IngestParams ι) δ) :
    List (TaskResult δ) × PoolState (IngestParams ι) δ :=
  let pool1 := pool.register_handler "ingest" processor
  let pool2 := pool1.add_tasks (ingest_tasks collection_name items)
  let final := run_until_complete pool2
  (final.results, final)

/-- `DataTrackerManager` (src/data_tracker.py lines 226-258): the stored
tracker instances, tagged by backend exactly as `get_tracker` builds
them. -/
inductive TrackerInstance (μ : Type) where
  | sqlite (name : String) (db_path : String) : TrackerInstance μ
  | memory (s : InMemoryDataTracker μ) : TrackerInstance μ
deriving Repr

/-- `DataTrackerManager.get_tracker` (lines 242-258): construct and store
an instance (SQLite-backed or in-memory according to `storage_type`) the
first time `name` is seen, otherwise return the stored one. -/
def get_tracker (storage_type db_path : String)
    (m : List (String × TrackerInstance μ)) (name : String) :
    TrackerInstance μ × List (String × TrackerInstance μ) :=
  match (m.find? (fun p => p.1 = name)).map (fun p => p.2) with
  | some t => (t, m)
  | none =>
    let t : TrackerInstance μ :=
      if storage_type = "sqlite" then TrackerInstance.sqlite name db_path
      else TrackerInstance.memory (InMemoryDataTracker.init μ name)
    (t, (name, t) :: m)

/-! ## Concrete runs used by closed counterexamples and instances -/

/-- A fresh pool, one task of an unregistered type, default
`max_retries = 3` (src/worker_pool.py line 30), run to completion. -/
def noHandlerRun : PoolState Unit Unit :=
  run_until_complete ((PoolState.init Unit Unit 4).add_task
    { task_id := "t0", task_type := "unregistered", params := () })

/-- A fresh pool with a handler that always fails, one submitted task
with `max_retries = 2`, run to completion. -/
def failHandlerRun : PoolState Unit Unit :=
  run_until_complete
    (((PoolState.init Unit Unit 2).register_handler "f"
        (fun _ => (Except.error "boom", (1 : ℚ)))).add_task
      { task_id := "a", task_type := "f", params := (), max_retries := 2 })

/-- One succeeding task (duration 1) and one terminally failing task
(duration 1) through a fresh pool. -/
def mixedRun : PoolState Unit Unit :=
  run_until_complete
    ((((PoolState.init Unit Unit 1).register_handler "good"
          (fun _ => (Except.ok (), (1 : ℚ)))).register_handler "bad"
          (fun _ => (Except.error "e", (1 : ℚ)))).add_tasks
      [{ task_id := "s", task_type := "good", params := (), max_retries := 0 },
       { task_id := "f", task_type := "bad", params := (), max_retries := 0 }])

/-- A run whose every attempt fails (duration 1 each, one retry). -/
def onlyFailRun : PoolState Unit Unit :=
  run_until_complete
    (((PoolState.init Unit Unit 1).register_handler "bad"
        (fun _ => (Except.error "e", (1 : ℚ)))).add_task
      { task_id := "f", task_type := "bad", params := (), max_retries := 1 })

/-- The pool after two successive `ingest_collection` calls with two
different processors (and no items, so only the registrations matter). -/
def ingestPoolTwice : PoolState (IngestParams Unit) String :=
  (ingest_collection
    ((ingest_collection (PoolState.init (IngestParams Unit) String 1) "first"
        ([] : List Unit) (fun _ => (Except.ok "p1", 0))).2)
    "second" ([] : List Unit) (fun _ => (Except.ok "p2", 0))).2

/-- The true mean duration of the successful executions in a result
list (the quantity the reported average is compared against). -/
def successMean (rs : List (TaskResult δ)) : ℚ :=
  let ss := rs.filter (fun r => r.success)
  if ss.length = 0 then 0 else (ss.map (fun r => r.execution_time)).sum / (ss.length : ℚ)

/-! ## Worker-loop lemmas -/

theorem loopN_nil (w n : Nat) (st : PoolState π δ) (h : st.queue = []) :
    loopN w n st = st := by
  cases n <;> simp [loopN, h]

theorem worker_step_total_tasks (st : PoolState π δ) (task : PoolTask π)
    (rest : List (PoolTask π)) (w : Nat) :
    (worker_step st task rest w).total_tasks = st.total_tasks := by
  unfold worker_step
  dsimp only
  split
  · rfl
  · split <;> rfl

theorem worker_step_task_handlers (st : PoolState π δ) (task : PoolTask π)
    (rest : List (PoolTask π)) (w : Nat) :
    (worker_step st task rest w).task_handlers = st.task_handlers := by
  unfold worker_step
  dsimp only
  split
  · rfl
  · split <;> rfl

theorem loopN_total_tasks (w : Nat) :
    ∀ (n : Nat) (st : PoolState π δ), (loopN w n st).total_tasks = st.total_tasks := by
  intro n
  induction n with
  | zero => intro st; rfl
  | succ n ih =>
    intro st
    cases hq : st.queue with
    | nil => simp [loopN, hq]
    | cons task rest =>
      simp only [loopN, hq]
      rw [ih, worker_step_total_tasks]

theorem loopN_task_handlers (w : Nat) :
    ∀ (n : Nat) (st : PoolState π δ), (loopN w n st).task_handlers = st.task_handlers := by
  intro n
  induction n with
  | zero => intro st; rfl
  | succ n ih =>
    intro st
    cases hq : st.queue with
    | nil => simp [loopN, hq]
    | cons task rest =>
      simp only [loopN, hq]
      rw [ih, worker_step_task_handlers]

theorem add_tasks_total_tasks (ts : List (PoolTask π)) :
    ∀ (st : PoolState π δ), (st.add_tasks ts).total_tasks = st.total_tasks + ts.length := by
  induction ts with
  | nil => intro st; rfl
  | cons t ts ih =>
    intro st
    show ((st.add_task t).add_tasks ts).total_tasks = st.total_tasks + (ts.length + 1)
    rw [ih]
    show st.total_tasks + 1 + ts.length = st.total_tasks + (ts.length + 1)
    omega

theorem execute_task_retry_irrel (hs : List (String × Handler π δ))
    (task : PoolTask π) (m w : Nat) :
    execute_task hs { task with retry_count := m } w = execute_task hs task w := rfl

theorem worker_step_fail_retry (st : PoolState π δ) (task : PoolTask π)
    (rest : List (PoolTask π)) (w : Nat)
    (hfail : (execute_task st.task_handlers task w).success = false)
    (hlt : task.retry_count < task.max_retries) :
    worker_step st task rest w =
      { st with
        queue := rest ++ [{ task with retry_count := task.retry_count + 1 }]
        results := st.results ++ [execute_task st.task_handlers task w]
        failed_tasks := st.failed_tasks + 1
        retried_tasks := st.retried_tasks + 1
        total_execution_time :=
          st.total_execution_time + (execute_task st.task_handlers task w).execution_time } := by
  unfold worker_step
  dsimp only
  rw [hfail]
  simp [hlt]

theorem worker_step_fail_terminal (st : PoolState π δ) (task : PoolTask π)
    (rest : List (PoolTask π)) (w : Nat)
    (hfail : (execute_task st.task_handlers task w).success = false)
    (hge : ¬ task.retry_count < task.max_retries) :
    worker_step st task rest w =
      { st with
        queue := rest
        results := st.results ++ [execute_task st.task_handlers task w]
        failed_tasks := st.failed_tasks + 1
        total_execution_time :=
          st.total_execution_time + (execute_task st.task_handlers task w).execution_time } := by
  unfold worker_step
  dsimp only
  rw [hfail]
  simp [hge]

/-- Draining a queue holding exactly one task that fails on every
attempt: one failed `TaskResult` is appended per attempt,
`max_retries + 1 - retry_count` attempts are made, the task is
re-enqueued `max_retries - retry_count` times, and the queue ends
empty. -/
theorem loopN_single_fail (w : Nat) :
    ∀ (n : Nat) (st : PoolState π δ) (task : PoolTask π),
      st.queue = [task] →
      (execute_task st.task_handlers task w).success = false →
      task.retry_count ≤ task.max_retries →
      runMeasure st.queue ≤ n →
      (loopN w n st).results =
        st.results ++ List.replicate (task.max_retries + 1 - task.retry_count)
          (execute_task st.task_handlers task w) ∧
      (loopN w n st).retried_tasks =
        st.retried_tasks + (task.max_retries - task.retry_count) ∧
      (loopN w n st).queue = [] ∧
      (loopN w n st).failed_tasks =
        st.failed_tasks + (task.max_retries + 1 - task.retry_count) ∧
      (loopN w n st).completed_tasks = st.completed_tasks := by
  intro n
  induction n with
  | zero =>
    intro st task hq hfail hrc hm
    rw [hq] at hm
    simp [runMeasure] at hm
  | succ n ih =>
    intro st task hq hfail hrc hm
    have hmval : runMeasure [task] ≤ n + 1 := by rw [hq] at hm; exact hm
    have hstep : loopN w (n + 1) st = loopN w n (worker_step st task [] w) := by
      simp only [loopN, hq]
    by_cases hlt : task.retry_count < task.max_retries
    · rw [hstep, worker_step_fail_retry st task [] w hfail hlt]
      have hq' : ({ st with
          queue := [] ++ [{ task with retry_count := task.retry_count + 1 }]
          results := st.results ++ [execute_task st.task_handlers task w]
          failed_tasks := st.failed_tasks + 1
          retried_tasks := st.retried_tasks + 1
          total_execution_time :=
            st.total_execution_time + (execute_task st.task_handlers task w).execution_time } :
            PoolState π δ).queue = [{ task with retry_count := task.retry_count + 1 }] := rfl
      have hfail' : (execute_task ({ st with
          queue := [] ++ [{ task with retry_count := task.retry_count + 1 }]
          results := st.results ++ [execute_task st.task_handlers task w]
          failed_tasks := st.failed_tasks + 1
          retried_tasks := st.retried_tasks + 1
          total_execution_time :=
            st.total_execution_time + (execute_task st.task_handlers task w).execution_time } :
            PoolState π δ).task_handlers
          { task with retry_count := task.retry_count + 1 } w).success = false := by
        rw [execute_task_retry_irrel]
        exact hfail
      have hrc' : ({ task with retry_count := task.retry_count + 1 } : PoolTask π).retry_count ≤
          ({ task with retry_count := task.retry_count + 1 } : PoolTask π).max_retries := by
        show task.retry_count + 1 ≤ task.max_retries
        omega
      have hm' : runMeasure [{ task with retry_count := task.retry_count + 1 }] ≤ n := by
        have h1 : runMeasure [task] = task.max_retries + 1 - task.retry_count + 1 := by
          simp [runMeasure]
        have h2 : runMeasure [{ task with retry_count := task.retry_count + 1 }] =
            task.max_retries + 1 - (task.retry_count + 1) + 1 := by
          simp [runMeasure]
        omega
      obtain ⟨h1, h2, h3, h4, h5⟩ := ih _ _ hq' hfail' hrc' hm'
      rw [execute_task_retry_irrel] at h1
      refine ⟨?_, ?_, h3, ?_, h5⟩
      · rw [h1]
        show st.results ++ [execute_task st.task_handlers task w] ++
            List.replicate (task.max_retries + 1 - (task.retry_count + 1))
              (execute_task st.task_handlers task w) = _
        rw [List.append_assoc]
        have hrep : [execute_task st.task_handlers task w] ++
            List.replicate (task.max_retries + 1 - (task.retry_count + 1))
              (execute_task st.task_handlers task w) =
            List.replicate (task.max_retries + 1 - task.retry_count)
              (execute_task st.task_handlers task w) := by
          have : task.max_retries + 1 - task.retry_count =
              (task.max_retries + 1 - (task.retry_count + 1)) + 1 := by omega
          rw [this, List.replicate_succ]
          rfl
        rw [hrep]
      · rw [h2]
        show st.retried_tasks + 1 + (task.max_retries - (task.retry_count + 1)) = _
        omega
      · rw [h4]
        show st.failed_tasks + 1 + (task.max_retries + 1 - (task.retry_count + 1)) = _
        omega
    · have hrceq : task.retry_count = task.max_retries := by omega
      rw [hstep, worker_step_fail_terminal st task [] w hfail hlt]
      rw [loopN_nil w n _ rfl]
      refine ⟨?_, ?_, rfl, ?_, rfl⟩
      · show st.results ++ [execute_task st.task_handlers task w] = _
        have : task.max_retries + 1 - task.retry_count = 1 := by omega
        rw [this]
        rfl
      · show st.retried_tasks = st.retried_tasks + (task.max_retries - task.retry_count)
        omega
      · show st.failed_tasks + 1 = st.failed_tasks + (task.max_retries + 1 - task.retry_count)
        omega

/-! ## Rate limiter lemmas -/

theorem clean_window_head_le (now a : ℚ) :
    ∀ (w : List ℚ) (t : ℚ) (rest : List ℚ),
      clean_window now a w = t :: rest → now - t ≤ a := by
  intro w
  induction w with
  | nil => intro t rest h; simp [clean_window] at h
  | cons t0 r ih =>
    intro t rest h
    simp only [clean_window] at h
    split at h
    · exact ih t rest h
    · rename_i hc
      injection h with h1 h2
      subst h1
      exact not_lt.mp hc

/-- C3: when, after eviction, both windows are at capacity, the wait
returned by `wait_if_needed` is the maximum of the minute-constraint wait
`60 - (now - oldest_minute)` and the hour-constraint wait
`3600 - (now - oldest_hour)`, never their sum. -/
theorem acquire_wait_is_max_of_constraint_waits (st : RateLimiter) (now tm th : ℚ)
    (mrest hrest : List ℚ)
    (hm : clean_window now 60 st.minute_window = tm :: mrest)
    (hh : clean_window now 3600 st.hour_window = th :: hrest)
    (hmcap : (((tm :: mrest).length : Int) ≥ st.requests_per_minute))
    (hhcap : (((th :: hrest).length : Int) ≥ st.requests_per_hour)) :
    ∃ st', wait_if_needed now st =
      Except.ok (max (60 - (now - tm)) (3600 - (now - th)), st') := by
  have hage : now - tm ≤ 60 := clean_window_head_le now 60 st.minute_window tm mrest hm
  have hmax0 : max (0 : ℚ) (60 - (now - tm)) = 60 - (now - tm) :=
    max_eq_right (by linarith)
  exact ⟨_, by
    unfold wait_if_needed
    rw [hm, hh]
    dsimp only
    rw [if_pos hmcap]
    simp only [List.head?_cons]
    rw [if_pos hhcap]
    simp only [List.head?_cons]
    rw [hmax0]⟩

/-- Witness for C3: a limiter with both limits 1 and one entry in each
window (minute entry aged 20s, hour entry aged 25s) at `now = 30`; the
wait is `max 40 3575`, not `40 + 3575`. -/
theorem acquire_wait_is_max_of_constraint_waits_witness :
    ∃ st', wait_if_needed 30
        { requests_per_hour := 1, requests_per_minute := 1, hour_window := [5],
          minute_window := [10], total_requests := 0, total_throttled := 0 } =
      Except.ok (max (60 - (30 - 10)) (3600 - (30 - 5)), st') :=
  acquire_wait_is_max_of_constraint_waits
    { requests_per_hour := 1, requests_per_minute := 1, hour_window := [5],
      minute_window := [10], total_requests := 0, total_throttled := 0 }
    30 10 5 [] [] (by norm_num [clean_window]) (by norm_num [clean_window])
    (by decide) (by decide)

/-- C4 counterexample: `RateLimiter(0, 0)` and `WorkerPool(num_workers=0)`
construct fully-formed, usable instances without raising any error; the
non-positive minute limit only surfaces later, as an `IndexError` inside
the first `wait_if_needed` call. -/
theorem constructors_no_validation_counterexample :
    RateLimiter.init 0 0 =
      { requests_per_hour := 0, requests_per_minute := 0, hour_window := [],
        minute_window := [], total_requests := 0, total_throttled := 0 } ∧
    (PoolState.init Unit Unit 0).num_workers = 0 ∧
    ((PoolState.init Unit Unit 0).add_task
        { task_id := "t", task_type := "ty", params := () }).total_tasks = 1 ∧
    wait_if_needed 7 (RateLimiter.init 0 0) =
      Except.error "IndexError: deque index out of range" :=
  ⟨rfl, rfl, rfl, rfl⟩

/-- C4 amended: the constructors perform no validation — non-positive
limits and worker counts are stored as given and an instance is
produced; with a non-positive `requests_per_minute` the failure appears
only at acquire time, as an uncaught `IndexError` in `wait_if_needed`. -/
theorem constructors_accept_nonpositive_params (rph rpm : Int) (n : Nat) (now : ℚ)
    (hrpm : rpm ≤ 0) :
    RateLimiter.init rph rpm =
      { requests_per_hour := rph, requests_per_minute := rpm, hour_window := [],
        minute_window := [], total_requests := 0, total_throttled := 0 } ∧
    (PoolState.init Unit Unit n).num_workers = n ∧
    wait_if_needed now (RateLimiter.init rph rpm) =
      Except.error "IndexError: deque index out of range" := by
  refine ⟨rfl, rfl, ?_⟩
  unfold wait_if_needed RateLimiter.init
  dsimp only
  rw [if_pos]
  · rfl
  · show ((([] : List ℚ).length : Int) ≥ rpm)
    simpa using hrpm

/-- Witness for C4's amended statement at `rpm = -1`. -/
theorem constructors_accept_nonpositive_params_witness :
    RateLimiter.init 2 (-1) =
      { requests_per_hour := 2, requests_per_minute := -1, hour_window := [],
        minute_window := [], total_requests := 0, total_throttled := 0 } ∧
    (PoolState.init Unit Unit 0).num_workers = 0 ∧
    wait_if_needed 7 (RateLimiter.init 2 (-1)) =
      Except.error "IndexError: deque index out of range" :=
  constructors_accept_nonpositive_params 2 (-1) 0 7 (by decide)

/-! ## Tracker lemmas -/

/-- Updating the metadata/timestamp of the rows matching one key leaves
every `has_item` answer unchanged: the update touches neither
`tracker_name` nor `item_id`. -/
theorem has_item_map_update (name2 id2 name id : String) (md : Option String) (now : ℚ) :
    ∀ db : SQLiteDB,
      SQLiteDataTracker.has_item
        (db.map (fun r =>
          if r.tracker_name = name2 && r.item_id = id2 then
            { r with metadata := md, ingested_at := now }
          else r)) name id = SQLiteDataTracker.has_item db name id := by
  intro db
  induction db with
  | nil => rfl
  | cons r rest ih =>
    simp only [List.map_cons, SQLiteDataTracker.has_item, List.any_cons] at *
    rw [ih]
    by_cases hk : (decide (r.tracker_name = name2) && decide (r.item_id = id2)) = true
    · rw [if_pos hk]
    · rw [if_neg hk]

theorem inmem_add_same_has (s : InMemoryDataTracker μ) (id : String) (md : Option μ) :
    (s.add_item id md).has_item id = true := by
  unfold InMemoryDataTracker.add_item InMemoryDataTracker.has_item
  by_cases h : id ∈ s.items
  · simp [h]
  · simp [h]

theorem inmem_add_other_has (s : InMemoryDataTracker μ) (id id2 : String)
    (md : Option μ) (hne : id2 ≠ id) :
    (s.add_item id2 md).has_item id = s.has_item id := by
  unfold InMemoryDataTracker.add_item InMemoryDataTracker.has_item
  by_cases h : id2 ∈ s.items
  · simp [h]
  · simp [h, Ne.symm hne]

/-- C7: for both tracker variants, `has_item` is false on a fresh state,
true immediately after `add_item` of that id (whatever the prior state,
hence stable under arbitrarily many repeated `add_item` calls), is
untouched by `add_item` of a different id, and a repeated `add_item`
never fails — on a pre-existing id the durable variant updates the
existing row in place (table size unchanged) instead of erroring. -/
theorem dedup_has_add_idempotent (μ : Type) (name id1 id2 : String)
    (md : Option μ) (mds : Option String) (s : InMemoryDataTracker μ)
    (db : SQLiteDB) (now : ℚ) (hash : String → String) (hne : id2 ≠ id1) :
    (InMemoryDataTracker.init μ name).has_item id1 = false ∧
    (s.add_item id1 md).has_item id1 = true ∧
    (s.add_item id2 md).has_item id1 = s.has_item id1 ∧
    SQLiteDataTracker.has_item ([] : SQLiteDB) name id1 = false ∧
    SQLiteDataTracker.has_item
      (SQLiteDataTracker.add_item hash db name id1 mds now) name id1 = true ∧
    SQLiteDataTracker.has_item
      (SQLiteDataTracker.add_item hash db name id2 mds now) name id1 =
      SQLiteDataTracker.has_item db name id1 ∧
    (SQLiteDataTracker.add_item hash db name id1 mds now).length =
      (if SQLiteDataTracker.has_item db name id1 then db.length else db.length + 1) := by
  refine ⟨rfl, inmem_add_same_has s id1 md, inmem_add_other_has s id1 id2 md hne,
    rfl, ?_, ?_, ?_⟩
  · unfold SQLiteDataTracker.add_item
    by_cases h : db.any (fun r => r.tracker_name = name && r.item_id = id1) = true
    · rw [if_pos h]
      rw [has_item_map_update name id1 name id1 mds now db]
      exact h
    · rw [if_neg h]
      simp [SQLiteDataTracker.has_item]
  · unfold SQLiteDataTracker.add_item
    by_cases h : db.any (fun r => r.tracker_name = name && r.item_id = id2) = true
    · rw [if_pos h]
      exact has_item_map_update name id2 name id1 mds now db
    · rw [if_neg h]
      simp [SQLiteDataTracker.has_item, hne]
  · unfold SQLiteDataTracker.add_item SQLiteDataTracker.has_item
    by_cases h : db.any (fun r => r.tracker_name = name && r.item_id = id1) = true
    · rw [if_pos h, if_pos h, List.length_map]
    · rw [if_neg h, if_neg h, List.length_append]
      rfl

/-- Witness for C7 at a concrete fresh in-memory tracker and empty
database, ids "a" and "b". -/
theorem dedup_has_add_idempotent_witness :
    (InMemoryDataTracker.init Unit "n").has_item "a" = false ∧
    ((InMemoryDataTracker.init Unit "n").add_item "a" none).has_item "a" = true ∧
    ((InMemoryDataTracker.init Unit "n").add_item "b" none).has_item "a" =
      (InMemoryDataTracker.init Unit "n").has_item "a" ∧
    SQLiteDataTracker.has_item ([] : SQLiteDB) "n" "a" = false ∧
    SQLiteDataTracker.has_item
      (SQLiteDataTracker.add_item (fun s => s) [] "n" "a" none 0) "n" "a" = true ∧
    SQLiteDataTracker.has_item
      (SQLiteDataTracker.add_item (fun s => s) [] "n" "b" none 0) "n" "a" =
      SQLiteDataTracker.has_item ([] : SQLiteDB) "n" "a" ∧
    (SQLiteDataTracker.add_item (fun s => s) [] "n" "a" none 0).length =
      (if SQLiteDataTracker.has_item ([] : SQLiteDB) "n" "a" then
        ([] : SQLiteDB).length else ([] : SQLiteDB).length + 1) :=
  dedup_has_add_idempotent Unit "n" "a" "b" none none
    (InMemoryDataTracker.init Unit "n") [] 0 (fun s => s) (by decide)

theorem sqlite_clear_total_items (name : String) :
    ∀ db : SQLiteDB,
      SQLiteDataTracker.total_items (SQLiteDataTracker.clear db name) name = 0 := by
  intro db
  induction db with
  | nil => rfl
  | cons r rest ih =>
    unfold SQLiteDataTracker.clear SQLiteDataTracker.total_items at *
    by_cases h : r.tracker_name = name
    · simp [h]
    · simp [h]

theorem sqlite_clear_has_item (name id : String) :
    ∀ db : SQLiteDB,
      SQLiteDataTracker.has_item (SQLiteDataTracker.clear db name) name id = false := by
  intro db
  induction db with
  | nil => rfl
  | cons r rest ih =>
    unfold SQLiteDataTracker.clear SQLiteDataTracker.has_item at *
    by_cases h : r.tracker_name = name
    · simpa [h] using ih
    · simpa [h] using ih

/-- C8: `clear()` leaves `get_stats().total_items` at 0 and makes
`has_item` false for every id, for both tracker variants (the durable
variant deletes exactly the rows of its own tracker name, which are the
only rows its `total_items` and `has_item` consult). -/
theorem clear_resets_tracker (μ : Type) (name id : String)
    (s : InMemoryDataTracker μ) (db : SQLiteDB) :
    s.clear.total_items = 0 ∧
    s.clear.has_item id = false ∧
    SQLiteDataTracker.total_items (SQLiteDataTracker.clear db name) name = 0 ∧
    SQLiteDataTracker.has_item (SQLiteDataTracker.clear db name) name id = false :=
  ⟨rfl, rfl, sqlite_clear_total_items name db, sqlite_clear_has_item name id db⟩

/-- C9: for both registries, the first `get_or_create`/`get_tracker` for
a fresh name constructs an instance from the supplied configuration and
stores it under the name; any further call with the same name returns
exactly the stored instance and leaves the registry unchanged, ignoring
the newly supplied configuration. -/
theorem registry_get_or_create_caches (μ : Type) (m : List (String × RateLimiter))
    (name : String) (rph rpm rph2 rpm2 : Int)
    (tm : List (String × TrackerInstance μ)) (storage db_path : String)
    (hnew : lookupLimiter m name = none) :
    (get_or_create m name rph rpm).1 = RateLimiter.init rph rpm ∧
    (get_or_create m name rph rpm).2 = (name, RateLimiter.init rph rpm) :: m ∧
    get_or_create ((get_or_create m name rph rpm).2) name rph2 rpm2 =
      ((get_or_create m name rph rpm).1, (get_or_create m name rph rpm).2) ∧
    get_tracker storage db_path ((get_tracker storage db_path tm name).2) name =
      get_tracker storage db_path tm name := by
  have h1 : get_or_create m name rph rpm = (RateLimiter.init rph rpm,
      (name, RateLimiter.init rph rpm) :: m) := by
    unfold get_or_create
    rw [hnew]
  refine ⟨by rw [h1], by rw [h1], ?_, ?_⟩
  · rw [h1]
    unfold get_or_create
    simp [lookupLimiter]
  · cases hfind : (tm.find? (fun p => p.1 = name)).map (fun p => p.2) with
    | some t =>
      have hfst : get_tracker storage db_path tm name = (t, tm) := by
        unfold get_tracker
        rw [hfind]
      rw [hfst]
      exact hfst
    | none =>
      unfold get_tracker
      rw [hfind]
      dsimp only
      simp

/-- Witness for C9 on empty registries and the name "api". -/
theorem registry_get_or_create_caches_witness :
    (get_or_create [] "api" 100 10).1 = RateLimiter.init 100 10 ∧
    (get_or_create [] "api" 100 10).2 = [("api", RateLimiter.init 100 10)] ∧
    get_or_create ((get_or_create [] "api" 100 10).2) "api" 5 1 =
      ((get_or_create [] "api" 100 10).1, (get_or_create [] "api" 100 10).2) ∧
    get_tracker "sqlite" "d.db"
        ((get_tracker "sqlite" "d.db" ([] : List (String × TrackerInstance Unit)) "api").2)
        "api" =
      get_tracker "sqlite" "d.db" ([] : List (String × TrackerInstance Unit)) "api" :=
  registry_get_or_create_caches Unit [] "api" 100 10 5 1 [] "sqlite" "d.db" rfl

theorem execute_task_task_id (hs : List (String × Handler π δ)) (task : PoolTask π)
    (w : Nat) : (execute_task hs task w).task_id = task.task_id := by
  unfold execute_task
  split
  · rfl
  · split <;> rfl

theorem add_tasks_task_handlers (ts : List (PoolTask π)) :
    ∀ st : PoolState π δ, (st.add_tasks ts).task_handlers = st.task_handlers := by
  induction ts with
  | nil => intro st; rfl
  | cons t ts ih => intro st; exact ih (st.add_task t)

/-- C1 counterexample: a fresh pool given one task of an unregistered
type with default `max_retries = 3` re-enqueues that task three times
(`retried_tasks = 3`) and records four failed attempts, so an
unknown-handler failure is not terminal and is retried. -/
theorem unknown_handler_task_is_reenqueued_counterexample :
    noHandlerRun.retried_tasks = 3 ∧ noHandlerRun.results.length = 4 :=
  ⟨rfl, rfl⟩

/-- C1 amended: dequeuing a task whose type has no registered handler
produces a failed TaskResult carrying the `ValueError` message, and the
task is then re-enqueued for retry exactly like any other failure — with
`retry_count = 0` and `max_retries = k` it is re-enqueued `k` times and
yields `k + 1` failed results, terminal only once `retry_count` reaches
`max_retries`. -/
theorem unknown_handler_failure_retried_like_any_failure
    (k : Nat) (pool : PoolState π δ) (task : PoolTask π)
    (hq : pool.queue = []) (hres : pool.results = [])
    (hh : getHandler pool.task_handlers task.task_type = none)
    (hrc : task.retry_count = 0) (hmr : task.max_retries = k) :
    (run_until_complete (pool.add_task task)).results.length = k + 1 ∧
    (∀ r ∈ (run_until_complete (pool.add_task task)).results,
        r.task_id = task.task_id ∧ r.success = false ∧
        r.error = some ("No handler registered for task type: " ++ task.task_type)) ∧
    (run_until_complete (pool.add_task task)).retried_tasks =
      pool.retried_tasks + k := by
  have hq1 : (pool.add_task task).queue = [task] := by
    simp [PoolState.add_task, hq]
  have hhs : (pool.add_task task).task_handlers = pool.task_handlers := rfl
  have hexec : execute_task (pool.add_task task).task_handlers task 0 =
      { task_id := task.task_id, success := false, data := none
        error := some ("No handler registered for task type: " ++ task.task_type)
        execution_time := 0, worker_id := 0 } := by
    unfold execute_task
    rw [hhs, hh]
  have hfail : (execute_task (pool.add_task task).task_handlers task 0).success = false := by
    rw [hexec]
  obtain ⟨h1, h2, h3, h4, h5⟩ := loopN_single_fail 0 (runMeasure (pool.add_task task).queue)
    (pool.add_task task) task hq1 hfail (by omega) (le_refl _)
  have hresults : (run_until_complete (pool.add_task task)).results =
      List.replicate (k + 1) (execute_task (pool.add_task task).task_handlers task 0) := by
    show (loopN 0 (runMeasure (pool.add_task task).queue) (pool.add_task task)).results = _
    rw [h1]
    have hre : (pool.add_task task).results = pool.results := rfl
    rw [hre, hres, hrc, hmr]
    simp
  refine ⟨?_, ?_, ?_⟩
  · rw [hresults, List.length_replicate]
  · intro r hr
    rw [hresults] at hr
    have hrep := List.eq_of_mem_replicate hr
    rw [hrep, hexec]
    exact ⟨rfl, rfl, rfl⟩
  · show (loopN 0 (runMeasure (pool.add_task task).queue) (pool.add_task task)).retried_tasks = _
    rw [h2]
    have hrt : (pool.add_task task).retried_tasks = pool.retried_tasks := rfl
    rw [hrt, hrc, hmr]
    simp

/-- Witness for C1's amended statement: the concrete `noHandlerRun`. -/
theorem unknown_handler_failure_retried_like_any_failure_witness :
    noHandlerRun.results.length = 4 ∧
    (∀ r ∈ noHandlerRun.results, r.task_id = "t0" ∧ r.success = false ∧
        r.error = some ("No handler registered for task type: " ++ "unregistered")) ∧
    noHandlerRun.retried_tasks = 3 :=
  unknown_handler_failure_retried_like_any_failure 3 _ _ rfl rfl rfl rfl rfl

/-- C2: a single submitted task with `max_retries = k` and a registered
handler that fails on every invocation yields exactly `k + 1`
TaskResults, each carrying the task's id with `success = false`, and the
task is re-enqueued (`retried_tasks`) exactly `k` times. -/
theorem failing_handler_yields_k_plus_one_failures
    (k : Nat) (pool : PoolState π δ) (task : PoolTask π) (h : Handler π δ)
    (hq : pool.queue = []) (hres : pool.results = [])
    (hh : getHandler pool.task_handlers task.task_type = some h)
    (hfailh : ∀ p, ∃ e t, h p = (Except.error e, t))
    (hrc : task.retry_count = 0) (hmr : task.max_retries = k) :
    (run_until_complete (pool.add_task task)).results.length = k + 1 ∧
    (∀ r ∈ (run_until_complete (pool.add_task task)).results,
        r.task_id = task.task_id ∧ r.success = false) ∧
    (run_until_complete (pool.add_task task)).retried_tasks =
      pool.retried_tasks + k := by
  have hq1 : (pool.add_task task).queue = [task] := by
    simp [PoolState.add_task, hq]
  have hhs : (pool.add_task task).task_handlers = pool.task_handlers := rfl
  obtain ⟨e, t, heq⟩ := hfailh task.params
  have hfail : (execute_task (pool.add_task task).task_handlers task 0).success = false := by
    unfold execute_task
    rw [hhs, hh]
    dsimp only
    rw [heq]
  obtain ⟨h1, h2, h3, h4, h5⟩ := loopN_single_fail 0 (runMeasure (pool.add_task task).queue)
    (pool.add_task task) task hq1 hfail (by omega) (le_refl _)
  have hresults : (run_until_complete (pool.add_task task)).results =
      List.replicate (k + 1) (execute_task (pool.add_task task).task_handlers task 0) := by
    show (loopN 0 (runMeasure (pool.add_task task).queue) (pool.add_task task)).results = _
    rw [h1]
    have hre : (pool.add_task task).results = pool.results := rfl
    rw [hre, hres, hrc, hmr]
    simp
  refine ⟨?_, ?_, ?_⟩
  · rw [hresults, List.length_replicate]
  · intro r hr
    rw [hresults] at hr
    have hrep := List.eq_of_mem_replicate hr
    rw [hrep]
    exact ⟨execute_task_task_id _ _ _, hfail⟩
  · show (loopN 0 (runMeasure (pool.add_task task).queue) (pool.add_task task)).retried_tasks = _
    rw [h2]
    have hrt : (pool.add_task task).retried_tasks = pool.retried_tasks := rfl
    rw [hrt, hrc, hmr]
    simp

/-- Witness for C2: the concrete `failHandlerRun` (`max_retries = 2`). -/
theorem failing_handler_yields_k_plus_one_failures_witness :
    failHandlerRun.results.length = 3 ∧
    (∀ r ∈ failHandlerRun.results, r.task_id = "a" ∧ r.success = false) ∧
    failHandlerRun.retried_tasks = 2 :=
  failing_handler_yields_k_plus_one_failures 2 _ _ _ rfl rfl rfl
    (fun _ => ⟨"boom", 1, rfl⟩) rfl rfl

/-- C5 counterexample: one submitted task retried twice
(`retried_tasks = 2`) ends the run with `total_tasks = 1`, not
`1 + 2 = 3`: the retry re-enqueue path calls `task_queue.put` directly
and never increments `total_tasks`. -/
theorem total_tasks_excludes_retries_counterexample :
    failHandlerRun.total_tasks = 1 ∧ failHandlerRun.retried_tasks = 2 ∧
    failHandlerRun.total_tasks ≠ 1 + failHandlerRun.retried_tasks :=
  ⟨rfl, rfl, by decide⟩

/-- C5 amended: `total_tasks` counts exactly the tasks enqueued through
`add_task`/`add_tasks`; a retry re-enqueue leaves it unchanged (it is
counted in `retried_tasks` instead), so after any run `total_tasks`
equals the number of submitted tasks, whatever retries occurred. -/
theorem total_tasks_counts_only_submissions (pool : PoolState π δ)
    (ts : List (PoolTask π)) :
    (run_until_complete (pool.add_tasks ts)).total_tasks =
      pool.total_tasks + ts.length := by
  unfold run_until_complete
  rw [loopN_total_tasks, add_tasks_total_tasks]

/-- C6 counterexample: two successive `ingest_collection` calls with
distinct collections and processors both register under the single
task_type `"ingest"` — the registry ends with two entries under the same
key and the lookup now answers with the second call's processor (the
first is shadowed), so the synthetic task_type is not scoped per call. -/
theorem ingest_task_type_fixed_counterexample :
    ingestPoolTwice.task_handlers.map Prod.fst = ["ingest", "ingest"] ∧
    (getHandler ingestPoolTwice.task_handlers "ingest").map
        (fun h => h { item := (), collection := "x" }) = some (Except.ok "p2", 0) :=
  ⟨rfl, rfl⟩

/-- C6 amended: every `ingest_collection` call registers its processor
under the one fixed task_type `"ingest"` (a later call's registration
shadows any earlier one), and item `i` receives
`task_id = collection_name ++ "_" ++ i`. -/
theorem ingest_registers_fixed_type_and_indexed_ids
    (pool : PoolState (IngestParams ι) δ) (name : String) (items : List ι)
    (processor : Handler (IngestParams ι) δ) :
    ((ingest_collection pool name items processor).2).task_handlers =
      ("ingest", processor) :: pool.task_handlers ∧
    (ingest_tasks name items).map (fun t => t.task_type) =
      List.replicate items.length "ingest" ∧
    (ingest_tasks name items).map (fun t => t.task_id) =
      (List.range items.length).map (fun i => name ++ "_" ++ toString i) := by
  refine ⟨?_, ?_, ?_⟩
  · show (run_until_complete ((pool.register_handler "ingest" processor).add_tasks
        (ingest_tasks name items))).task_handlers = _
    unfold run_until_complete
    rw [loopN_task_handlers, add_tasks_task_handlers]
    rfl
  · unfold ingest_tasks
    rw [List.map_map]
    have hconst : ((List.range items.length).zip items).map
        ((fun t : PoolTask (IngestParams ι) => t.task_type) ∘ (fun p : Nat × ι =>
          ({ task_id := name ++ "_" ++ toString p.1, task_type := "ingest",
             params := { item := p.2, collection := name } } :
            PoolTask (IngestParams ι)))) =
        ((List.range items.length).zip items).map (fun _ => "ingest") := rfl
    rw [hconst, List.map_const']
    simp
  · unfold ingest_tasks
    rw [List.map_map]
    have hz : ((List.range items.length).zip items).map Prod.fst =
        List.range items.length :=
      List.map_fst_zip _ _ (by simp)
    have hcomp : ((List.range items.length).zip items).map
        ((fun t : PoolTask (IngestParams ι) => t.task_id) ∘ (fun p : Nat × ι =>
          ({ task_id := name ++ "_" ++ toString p.1, task_type := "ingest",
             params := { item := p.2, collection := name } } :
            PoolTask (IngestParams ι)))) =
        ((List.range items.length).zip items).map
          ((fun i : Nat => name ++ "_" ++ toString i) ∘ Prod.fst) := rfl
    rw [hcomp, ← List.map_map, hz]

/-- C10: `get_stats` reports `avg_execution_time` as
`total_execution_time / completed_tasks` when `completed_tasks > 0` and
`0.0` otherwise, and `total_execution_time` accumulates failed attempts
too; consequently on `mixedRun` (one success of duration 1, one failed
attempt of duration 1) the reported average (2) exceeds the true mean of
the successful executions (1), and on `onlyFailRun` (two failed attempts
of duration 1) the average is reported as 0 despite a nonzero
accumulated time. -/
theorem avg_execution_time_formula_and_bias :
    (∀ (π δ : Type) (st : PoolState π δ),
        (get_stats st).avg_execution_time =
          if st.completed_tasks > 0 then
            st.total_execution_time / (st.completed_tasks : ℚ) else 0) ∧
    (get_stats mixedRun).avg_execution_time > successMean mixedRun.results ∧
    (get_stats onlyFailRun).avg_execution_time = 0 ∧
    onlyFailRun.total_execution_time > 0 := by
  refine ⟨fun π δ st => rfl, ?_, rfl, ?_⟩
  · have hc : mixedRun.completed_tasks = 1 := rfl
    have ht : mixedRun.total_execution_time = 0 + 1 + 1 := rfl
    have hr : mixedRun.results =
        [{ task_id := "s", success := true, data := some (), error := none,
           execution_time := 1, worker_id := 0 },
         { task_id := "f", success := false, data := none, error := some "e",
           execution_time := 1, worker_id := 0 }] := rfl
    rw [show (get_stats mixedRun).avg_execution_time =
        (if mixedRun.completed_tasks > 0 then
          mixedRun.total_execution_time / (mixedRun.completed_tasks : ℚ) else 0) from rfl]
    rw [hc, ht, hr]
    simp [successMean]
  · have ht2 : onlyFailRun.total_execution_time = 0 + 1 + 1 := rfl
    rw [ht2]
    norm_num
